import Mathlib

/-!
Shallow embedding of the bill ledger core of `src/bill.py` (class
`BillEntrySystem`).

Monetary amounts are modelled as exact rationals (`ℚ`); Python integers are
`ℤ` with Python's floor division `//` and modulo `%` embedded as `Int.fdiv`
and `Int.fmod` (for a positive modulus these agree with Python).  Python's
builtin `round` (banker's rounding: round half to even) is embedded as
`pyRound`, `int()` truncation toward zero as `pyInt`, and `str.strip()` as
`pyStrip` (drop leading and trailing whitespace).

The GUI table and the SQLite table are modelled as two lists of line items
(`BillState.table`, `BillState.db`); the SQL statements of the source are
embedded as the corresponding list operations.
-/

/-- The `units` word list of `convert_currency_to_words` in `src/bill.py`. -/
def units : List String :=
  ["", "One", "Two", "Three", "Four", "Five", "Six", "Seven", "Eight", "Nine", "Ten",
   "Eleven", "Twelve", "Thirteen", "Fourteen", "Fifteen", "Sixteen", "Seventeen",
   "Eighteen", "Nineteen"]

/-- The `tens` word list of `convert_currency_to_words` in `src/bill.py`. -/
def tens : List String :=
  ["", "", "Twenty", "Thirty", "Forty", "Fifty", "Sixty", "Seventy", "Eighty", "Ninety"]

/-- Python `int(x)` on a rational value: truncation toward zero. -/
def pyInt (q : ℚ) : ℤ := if 0 ≤ q then ⌊q⌋ else ⌈q⌉

/-- Python builtin `round(x)` on an exactly-represented value: round to the
nearest integer, ties to the even neighbour (banker's rounding). -/
def pyRound (q : ℚ) : ℤ :=
  if q - ⌊q⌋ < 1 / 2 then ⌊q⌋
  else if 1 / 2 < q - ⌊q⌋ then ⌊q⌋ + 1
  else if ⌊q⌋ % 2 = 0 then ⌊q⌋ else ⌊q⌋ + 1

/-- Python `str.strip()`: remove leading and trailing whitespace. -/
def pyStrip (s : String) : String :=
  String.mk (((s.data.dropWhile Char.isWhitespace).reverse.dropWhile Char.isWhitespace).reverse)

/-- Embeds `convert_two_digits` of `src/bill.py` (lines 289-296): a number below 100
to words.  List indexing is embedded with `getD`; every reachable call passes
an index inside the list. -/
def convert_two_digits (n : ℤ) : String :=
  if n = 0 then ""
  else if n < 20 then units.getD n.toNat ""
  else tens.getD (n.fdiv 10).toNat ""
       ++ (if n.fmod 10 = 0 then "" else " " ++ units.getD (n.fmod 10).toNat "")

/-- Embeds `convert_three_digits` of `src/bill.py` (lines 298-305): a number below
1000 to words. -/
def convert_three_digits (n : ℤ) : String :=
  if n = 0 then ""
  else if n < 100 then convert_two_digits n
  else units.getD (n.fdiv 100).toNat "" ++ " Hundred"
       ++ (if n.fmod 100 = 0 then "" else " " ++ convert_two_digits (n.fmod 100))

/-- The `crore` group of `num_to_words`: `n // 10000000`. -/
def crore_part (n : ℤ) : ℤ := n.fdiv 10000000

/-- The value of the mutated local `n` after `n %= 10000000`. -/
def after_crore (n : ℤ) : ℤ := n.fmod 10000000

/-- The `lakh` group of `num_to_words`. -/
def lakh_part (n : ℤ) : ℤ := (after_crore n).fdiv 100000

/-- The value of the mutated local `n` after `n %= 100000`. -/
def after_lakh (n : ℤ) : ℤ := (after_crore n).fmod 100000

/-- The `thousand` group of `num_to_words`. -/
def thousand_part (n : ℤ) : ℤ := (after_lakh n).fdiv 1000

/-- The `hundred` group of `num_to_words`: the final 0-999 remainder. -/
def hundred_part (n : ℤ) : ℤ := (after_lakh n).fmod 1000

/-- The `words` list built by `num_to_words`: the non-zero groups, rendered
and suffixed with their magnitude names, in source order (most significant
first). -/
def group_words (n : ℤ) : List String :=
  (if crore_part n > 0 then [convert_two_digits (crore_part n) ++ " Crore"] else [])
  ++ (if lakh_part n > 0 then [convert_two_digits (lakh_part n) ++ " Lakh"] else [])
  ++ (if thousand_part n > 0 then [convert_two_digits (thousand_part n) ++ " Thousand"] else [])
  ++ (if hundred_part n > 0 then [convert_three_digits (hundred_part n)] else [])

/-- Embeds `num_to_words` of `src/bill.py` (lines 307-333): Indian-numbering word
rendering.  The sequential `//=`/`%=` mutation of `n` is embedded through the
`*_part` projections above; `' '.join(words).strip()` is
`pyStrip (String.intercalate " " (group_words n))`. -/
def num_to_words (n : ℤ) : String :=
  if n = 0 then "Zero"
  else pyStrip (String.intercalate " " (group_words n))

/-- The local `rupees = int(amount)` of `convert_currency_to_words`. -/
def rupees_of (amount : ℚ) : ℤ := pyInt amount

/-- The local `paise = round((amount - rupees) * 100)` of
`convert_currency_to_words`. -/
def paise_of (amount : ℚ) : ℤ := pyRound ((amount - (rupees_of amount : ℚ)) * 100)

/-- Embeds `convert_currency_to_words` of `src/bill.py` (lines 283-344). -/
def convert_currency_to_words (amount : ℚ) : String :=
  if paise_of amount > 0 then
    num_to_words (rupees_of amount) ++ " Rupees and " ++ num_to_words (paise_of amount)
      ++ " Paise"
  else
    num_to_words (rupees_of amount) ++ " Rupees"

/-- One row of the bill: the five columns of the GUI table and of the SQLite
`bill` table (`item_name`, `quantity`, `price`, `total`, `date`). -/
structure LineItem where
  name : String
  quantity : ℚ
  price : ℚ
  total : ℚ
  date : String
deriving Repr, DecidableEq

/-- The mutable state of `BillEntrySystem` relevant to the ledger: the GUI
table rows (`self.table`) and the SQLite `bill` table rows (`self.cursor`).
`save_item_to_db` appends to both; `remove_item` and `clear_all` mutate both. -/
structure BillState where
  table : List LineItem
  db : List LineItem
deriving Repr, DecidableEq

/-- Embeds `check_fields` of `src/bill.py` (lines 163-176): the gate that enables the
"Add Item" button.  The quantity field is modelled as `Option ℚ` (`none` =
empty/absent text, which Python turns into `1` via `text.strip() or 1`); the
price field as an already-parsed `ℚ` (raw-text parsing belongs to the excluded
input layer).  The name truthiness test is on the *stripped* text. -/
def check_fields (nameText : String) (qtyText : Option ℚ) (price : ℚ) : Bool :=
  !(pyStrip nameText).isEmpty && decide (qtyText.getD 1 > 0) && decide (price > 0)

/-- Embeds `save_item_to_db` of `src/bill.py` (lines 188-207): INSERT a row into the
SQLite table and append a row to the GUI table. -/
def save_item_to_db (item_name : String) (quantity price total : ℚ) (date : String)
    (s : BillState) : BillState :=
  { table := s.table ++ [⟨item_name, quantity, price, total, date⟩],
    db := s.db ++ [⟨item_name, quantity, price, total, date⟩] }

/-- Embeds `add_item` of `src/bill.py` (lines 178-186): reads the raw field values
(`item_name` is NOT stripped here, unlike in `check_fields`), defaults an
empty quantity to 1, and saves only when `item_name and quantity > 0 and
price > 0`; otherwise it does nothing. -/
def add_item (nameText : String) (qtyText : Option ℚ) (price : ℚ) (date : String)
    (s : BillState) : BillState :=
  let quantity := qtyText.getD 1
  if nameText ≠ "" ∧ quantity > 0 ∧ price > 0 then
    save_item_to_db nameText quantity price (quantity * price) date s
  else s

/-- The add-item operation as the GUI exposes it: `add_item` fires only while
the "Add Item" button is enabled, and `check_fields` keeps the button disabled
for invalid fields.  `none` models the rejected click (the spec's
`ValidationError`): no state change happens. -/
def gated_add_item (nameText : String) (qtyText : Option ℚ) (price : ℚ) (date : String)
    (s : BillState) : Option BillState :=
  if check_fields nameText qtyText price then
    some (add_item nameText qtyText price date s)
  else none

/-- Embeds `remove_item` of `src/bill.py` (lines 209-217): with a selected row
(`selected_row >= 0`) it reads the item NAME from column 0, runs
`DELETE FROM bill WHERE item_name=?` (removing every database row with that
name) and removes the single selected row from the GUI table; with no
selection (`selected_row < 0`, e.g. an empty table) it does nothing.  `none`
models the crash of reading a cell of a row past the end (unreachable through
`currentRow`). -/
def remove_item (selected_row : ℤ) (s : BillState) : Option BillState :=
  if 0 ≤ selected_row then
    match s.table.get? selected_row.toNat with
    | none => none
    | some it =>
        some { table := s.table.eraseIdx selected_row.toNat,
               db := s.db.filter (fun r => r.name ≠ it.name) }
  else some s

/-- Embeds `clear_all` of `src/bill.py` (lines 219-225): `DELETE FROM bill` and
`setRowCount(0)`. -/
def clear_all (_s : BillState) : BillState :=
  { table := [], db := [] }

/-- Embeds `calculate_total` of `src/bill.py` (lines 227-231): the sum of column 3
(the `total` field) over all GUI table rows.  (Python reparses the displayed
text; `str`/`float` round-tripping is exact, so this is the sum of the stored
totals.) -/
def calculate_total (s : BillState) : ℚ :=
  (s.table.map (fun r => r.total)).sum


/-! ## Claim theorems -/

/-- C9: an amount of 0 converts to exactly "Zero Rupees" (the zero rupee part
renders as the literal word "Zero"), and an amount of 1 converts to exactly
"One Rupees", with no singular/plural special-casing. -/
theorem C9_zero_and_one_rupees :
    convert_currency_to_words 0 = "Zero Rupees" ∧
    convert_currency_to_words 1 = "One Rupees" := by
  constructor
  · have h1 : rupees_of 0 = 0 := by norm_num [rupees_of, pyInt]
    have h2 : paise_of 0 = 0 := by norm_num [paise_of, rupees_of, pyInt, pyRound]
    rw [convert_currency_to_words, h1, h2]
    decide
  · have h1 : rupees_of 1 = 1 := by norm_num [rupees_of, pyInt]
    have h2 : paise_of 1 = 0 := by norm_num [paise_of, rupees_of, pyInt, pyRound]
    rw [convert_currency_to_words, h1, h2]
    decide

/-- C1: at amount 100.999 the rounded paise value is exactly 100, and the code
does NOT carry the overflow into the rupee part: it renders the phrase
"One Hundred Rupees and One Hundred Paise" instead of the
"One Hundred One Rupees" required by the claim. -/
theorem C1_hundred_paise_not_carried :
    paise_of (100999 / 1000) = 100 ∧
    convert_currency_to_words (100999 / 1000) =
      "One Hundred Rupees and One Hundred Paise" := by
  have h1 : rupees_of (100999 / 1000) = 100 := by norm_num [rupees_of, pyInt]
  have h2 : paise_of (100999 / 1000) = 100 := by
    norm_num [paise_of, rupees_of, pyInt, pyRound]
  exact ⟨h2, by rw [convert_currency_to_words, h1, h2]; decide⟩

/-- C2: a negative amount does NOT fail: the code has no `DomainError`, and on
amount = -5 Python's floor division/modulo turn the negative rupee value into
the phrase "Ninety Nine Lakh Ninety Nine Thousand Nine Hundred Ninety Five
Rupees" instead of an error. -/
theorem C2_negative_amount_no_error :
    convert_currency_to_words (-5) =
      "Ninety Nine Lakh Ninety Nine Thousand Nine Hundred Ninety Five Rupees" := by
  have h1 : rupees_of (-5) = -5 := by
    have hcast : ((-5 : ℚ)) = ((-5 : ℤ) : ℚ) := by norm_num
    rw [rupees_of, pyInt, if_neg (by norm_num), hcast, Int.ceil_intCast]
  have h2 : paise_of (-5) = 0 := by
    rw [paise_of, h1]
    norm_num [pyRound]
  rw [convert_currency_to_words, h1, h2]
  decide

/-- C10: when the remove operation is invoked with no row selected (the
current row index is negative, as on an empty table) it is a silent no-op:
the GUI table and the database are both left unchanged and no error is
raised. -/
theorem C10_remove_without_selection_noop (s : BillState) (i : ℤ) (h : i < 0) :
    remove_item i s = some s := by
  rw [remove_item, if_neg (by omega)]

/-- C10 witness: removing with row index -1 on the empty state changes
nothing. -/
theorem C10_remove_without_selection_noop_witness :
    remove_item (-1) ⟨[], []⟩ = some ⟨[], []⟩ :=
  C10_remove_without_selection_noop ⟨[], []⟩ (-1) (by decide)

/-- C8: the clear operation empties the GUI table and the database
unconditionally from any state, after which the item list is empty and the
grand total is 0; it is idempotent: clearing twice equals clearing once. -/
theorem C8_clear_all_empties_and_idempotent (s : BillState) :
    (clear_all s).table = [] ∧ (clear_all s).db = [] ∧
    calculate_total (clear_all s) = 0 ∧
    clear_all (clear_all s) = clear_all s :=
  ⟨rfl, rfl, rfl, rfl⟩

/-- C5: the remove operation does NOT identify the removed item purely by row
position: it deletes from the database BY NAME.  On a ledger holding two
different items that share the name "x", removing row 0 leaves row 1 in the
GUI table but deletes BOTH rows from the database; and a negative index is a
silent no-op instead of an `IndexError`. -/
theorem C5_remove_deletes_db_rows_by_name :
    remove_item 0
        ⟨[⟨"x", 1, 1, 1, "d"⟩, ⟨"x", 2, 2, 4, "d"⟩],
         [⟨"x", 1, 1, 1, "d"⟩, ⟨"x", 2, 2, 4, "d"⟩]⟩
      = some ⟨[⟨"x", 2, 2, 4, "d"⟩], []⟩ ∧
    remove_item (-1) ⟨[⟨"x", 1, 1, 1, "d"⟩], [⟨"x", 1, 1, 1, "d"⟩]⟩
      = some ⟨[⟨"x", 1, 1, 1, "d"⟩], [⟨"x", 1, 1, 1, "d"⟩]⟩ := by
  constructor
  · rfl
  · rfl

/-- C4: the add-item operation rejects the input — leaving the ledger
unchanged, since no state change happens on the rejected path — whenever the
name is empty or whitespace-only, the quantity is ≤ 0, or the unit price is
≤ 0 (the rejection the spec calls `ValidationError`); and an empty/absent
quantity defaults to 1. -/
theorem C4_add_item_validation (nameText : String) (qtyText : Option ℚ) (price : ℚ)
    (date : String) (s : BillState) :
    ((pyStrip nameText = "" ∨ qtyText.getD 1 ≤ 0 ∨ price ≤ 0) →
      gated_add_item nameText qtyText price date s = none) ∧
    gated_add_item nameText none price date s =
      gated_add_item nameText (some 1) price date s := by
  constructor
  · intro h
    have hc : check_fields nameText qtyText price = false := by
      rw [check_fields]
      rcases h with h | h | h
      · rw [h]; rfl
      · have hq : ¬ (qtyText.getD 1 > 0) := not_lt.mpr h
        simp [hq]
      · have hp : ¬ (price > 0) := not_lt.mpr h
        simp [hp]
    simp [gated_add_item, hc]
  · rfl

/-- C4 witness: a whitespace-only name with default quantity and price 1 is
rejected on the empty ledger. -/
theorem C4_add_item_validation_witness :
    (pyStrip " " = "" ∨ ((none : Option ℚ)).getD 1 ≤ 0 ∨ (1 : ℚ) ≤ 0) ∧
    gated_add_item " " none 1 "01-01-2026" ⟨[], []⟩ = none :=
  ⟨Or.inl (by decide),
   (C4_add_item_validation " " none 1 "01-01-2026" ⟨[], []⟩).1 (Or.inl (by decide))⟩

/-- C7: for every valid input (name non-empty after stripping, quantity > 0,
price > 0) the add-item operation succeeds and appends exactly one line item
whose `total` field is quantity × price, so the ledger length grows by exactly
1 and the grand total grows by quantity × price. -/
theorem C7_add_item_valid_appends (nameText : String) (qtyText : Option ℚ) (price : ℚ)
    (date : String) (s : BillState)
    (hname : pyStrip nameText ≠ "") (hq : qtyText.getD 1 > 0) (hp : price > 0) :
    ∃ s', gated_add_item nameText qtyText price date s = some s' ∧
      s'.table = s.table ++
        [⟨nameText, qtyText.getD 1, price, qtyText.getD 1 * price, date⟩] ∧
      s'.table.length = s.table.length + 1 ∧
      calculate_total s' = calculate_total s + qtyText.getD 1 * price := by
  have hne : (pyStrip nameText).isEmpty = false := by
    rcases hb : (pyStrip nameText).isEmpty with _ | _
    · rfl
    · exact absurd ((String.isEmpty_iff _).mp hb) hname
  have hc : check_fields nameText qtyText price = true := by
    rw [check_fields, hne]
    simp [hq, hp]
  have hn0 : nameText ≠ "" := by
    intro e
    exact hname (by rw [e]; rfl)
  have hmain : gated_add_item nameText qtyText price date s =
      some { table := s.table ++
               [⟨nameText, qtyText.getD 1, price, qtyText.getD 1 * price, date⟩],
             db := s.db ++
               [⟨nameText, qtyText.getD 1, price, qtyText.getD 1 * price, date⟩] } := by
    rw [gated_add_item, hc]
    simp only [if_true, add_item]
    rw [if_pos ⟨hn0, hq, hp⟩]
    rfl
  exact ⟨_, hmain, rfl, by simp, by simp [calculate_total]⟩

/-- C7 witness: adding item "x" with default quantity and price 1 to the
empty ledger appends one row with total 1 × 1. -/
theorem C7_add_item_valid_appends_witness :
    pyStrip "x" ≠ "" ∧ ((none : Option ℚ)).getD 1 > 0 ∧ (1 : ℚ) > 0 ∧
    (∃ s', gated_add_item "x" none 1 "01-01-2026" ⟨[], []⟩ = some s' ∧
      s'.table = [⟨"x", 1, 1, 1 * 1, "01-01-2026"⟩] ∧
      s'.table.length = 0 + 1 ∧
      calculate_total s' = calculate_total ⟨[], []⟩ + 1 * 1) :=
  ⟨by decide, by simp, by simp,
   C7_add_item_valid_appends "x" none 1 "01-01-2026" ⟨[], []⟩ (by decide) (by simp) (by simp)⟩

/-- C3: for every rupee amount > 0 the word conversion decomposes it by the
divisor chain crore = 10,000,000, then lakh = 100,000, then thousand = 1,000,
then a 0-999 remainder (the groups reconstruct the amount and lie in their
ranges), renders the non-zero groups suffixed with their magnitude names
joined most-significant first with single spaces; in particular 1234567.89
renders as "Twelve Lakh Thirty Four Thousand Five Hundred Sixty Seven Rupees
and Eighty Nine Paise". -/
theorem C3_indian_decomposition (n : ℤ) (hn : 0 < n) :
    n = 10000000 * crore_part n + 100000 * lakh_part n + 1000 * thousand_part n
        + hundred_part n
    ∧ 0 ≤ crore_part n
    ∧ 0 ≤ lakh_part n ∧ lakh_part n < 100
    ∧ 0 ≤ thousand_part n ∧ thousand_part n < 100
    ∧ 0 ≤ hundred_part n ∧ hundred_part n < 1000
    ∧ num_to_words n = pyStrip (String.intercalate " " (group_words n))
    ∧ convert_currency_to_words (123456789 / 100) =
        "Twelve Lakh Thirty Four Thousand Five Hundred Sixty Seven Rupees and Eighty Nine Paise"
    := by
  have e1 : crore_part n = n / 10000000 := Int.fdiv_eq_ediv n (by norm_num)
  have e2 : after_crore n = n % 10000000 := Int.fmod_eq_emod n (by norm_num)
  have e3 : lakh_part n = n % 10000000 / 100000 := by
    rw [lakh_part, e2]; exact Int.fdiv_eq_ediv _ (by norm_num)
  have e4 : after_lakh n = n % 10000000 % 100000 := by
    rw [after_lakh, e2]; exact Int.fmod_eq_emod _ (by norm_num)
  have e5 : thousand_part n = n % 10000000 % 100000 / 1000 := by
    rw [thousand_part, e4]; exact Int.fdiv_eq_ediv _ (by norm_num)
  have e6 : hundred_part n = n % 10000000 % 100000 % 1000 := by
    rw [hundred_part, e4]; exact Int.fmod_eq_emod _ (by norm_num)
  refine ⟨by rw [e1, e3, e5, e6]; omega,
          by rw [e1]; omega,
          by rw [e3]; omega, by rw [e3]; omega,
          by rw [e5]; omega, by rw [e5]; omega,
          by rw [e6]; omega, by rw [e6]; omega,
          by rw [num_to_words, if_neg (by omega)],
          ?_⟩
  have h1 : rupees_of (123456789 / 100) = 1234567 := by norm_num [rupees_of, pyInt]
  have h2 : paise_of (123456789 / 100) = 89 := by
    norm_num [paise_of, rupees_of, pyInt, pyRound]
  rw [convert_currency_to_words, h1, h2]
  decide

/-- C3 witness: the decomposition reconstructs the concrete amount 1234567. -/
theorem C3_indian_decomposition_witness :
    0 < (1234567 : ℤ) ∧
    (1234567 : ℤ) = 10000000 * crore_part 1234567 + 100000 * lakh_part 1234567
      + 1000 * thousand_part 1234567 + hundred_part 1234567 :=
  ⟨by decide, (C3_indian_decomposition 1234567 (by decide)).1⟩

/-- Modelled from the spec wording of section 4.2, for comparison with the
code's `pyRound`: half-up rounding to the nearest integer paisa, where a
fractional part of exactly .5 always rounds upward. -/
def half_up_round (q : ℚ) : ℤ := ⌊q + 1 / 2⌋

/-- C6 counterexample: at amount 0.125 (exactly representable in binary
floating point, so the rational model agrees with the Python execution) the
fractional paise value is exactly 12.5; Python's banker rounding yields 12
while the half-up rounding stated by the claim yields 13. -/
theorem C6_counterexample_banker_rounding :
    rupees_of (1 / 8) = 0 ∧ paise_of (1 / 8) = 12 ∧
    half_up_round (((1 : ℚ) / 8 - (rupees_of (1 / 8) : ℚ)) * 100) = 13 := by
  have h0 : rupees_of (1 / 8) = 0 := by norm_num [rupees_of, pyInt]
  refine ⟨h0, ?_, ?_⟩
  · rw [paise_of, h0]
    norm_num [pyRound]
  · rw [h0]
    norm_num [half_up_round]

/-- C6 (amended): the rupee component is the truncation of the amount (for
non-negative amounts, its floor), and the paise component is
round((amount − rupees) × 100) under Python's banker rounding: away from
exact .5 ties it agrees with half-up rounding to the nearest integer paisa,
but at an exact .5 tie it picks the even neighbour, so .5 does not always
round upward. -/
theorem C6_amended_rounding (amount : ℚ) (h : 0 ≤ amount) :
    rupees_of amount = ⌊amount⌋ ∧
    paise_of amount = pyRound ((amount - (⌊amount⌋ : ℚ)) * 100) ∧
    (∀ q : ℚ, q - ⌊q⌋ ≠ 1 / 2 → pyRound q = half_up_round q) ∧
    (∀ q : ℚ, q - ⌊q⌋ = 1 / 2 →
      (pyRound q = ⌊q⌋ ∨ pyRound q = ⌊q⌋ + 1) ∧ pyRound q % 2 = 0) := by
  have hr : rupees_of amount = ⌊amount⌋ := by rw [rupees_of, pyInt, if_pos h]
  refine ⟨hr, by rw [paise_of, hr], ?_, ?_⟩
  · intro q hq
    have h0 : (0 : ℚ) ≤ q - ⌊q⌋ := by
      have := Int.floor_le q; linarith
    have h1 : q - ⌊q⌋ < 1 := by
      have := Int.lt_floor_add_one q; linarith
    rw [pyRound, half_up_round]
    rcases lt_or_gt_of_ne hq with hlt | hgt
    · rw [if_pos hlt]
      symm
      rw [Int.floor_eq_iff]
      constructor
      · have := Int.floor_le q; linarith
      · linarith
    · rw [if_neg (by linarith), if_pos hgt]
      symm
      rw [Int.floor_eq_iff]
      constructor
      · push_cast; linarith
      · push_cast; linarith
  · intro q hq
    rw [pyRound, if_neg (by rw [hq]; norm_num), if_neg (by rw [hq]; norm_num)]
    by_cases hpar : ⌊q⌋ % 2 = 0
    · rw [if_pos hpar]
      exact ⟨Or.inl rfl, hpar⟩
    · rw [if_neg hpar]
      exact ⟨Or.inr rfl, by omega⟩

/-- C6 witness: the amended rounding description applied at amount 0.125. -/
theorem C6_amended_rounding_witness :
    (0 : ℚ) ≤ 1 / 8 ∧ rupees_of (1 / 8) = ⌊(1 / 8 : ℚ)⌋ ∧
    paise_of (1 / 8) = pyRound ((1 / 8 - (⌊(1 / 8 : ℚ)⌋ : ℚ)) * 100) :=
  ⟨by norm_num, (C6_amended_rounding (1 / 8) (by norm_num)).1,
   (C6_amended_rounding (1 / 8) (by norm_num)).2.1⟩
